import Mathlib

/-!
Verification of the AgroGuide farming-advice dashboard (src/app.py) against its
natural-language specification.

The source file src/app.py is the random-choice variant of the dashboard: its
fallback function `mock_ai_response` seeds Python's PRNG from the builtin string
hash of the prompt and picks one of five canned strings.  The deterministic
keyword-rule engine `evaluate` / `defaultResponse` described by the spec lives
in the other near-duplicate variants of the repository, which are not present
under src/; it is modelled here from the spec's own algorithm description.

Python's builtin `hash` on strings (process-dependent via PYTHONHASHSEED) and
the stdlib PRNG method `random.Random(seed).choice` are external library
collaborators, so they enter the embedding as function parameters, together
with the stdlib contract that `choice` returns a member of a non-empty list.
-/

namespace AgroGuide

/-- The literal `samples` list of canned responses inside `mock_ai_response`
(src/app.py lines 64-70). -/
def samples : List String :=
  [ "Try drought-tolerant millets like ragi and bajra; use mulching to reduce evaporation.",
    "White insects likely whiteflies — use neem-spray or sticky traps; prune affected leaves.",
    "Irrigate lightly in the morning; avoid waterlogging; use drip if available.",
    "If pH > 8.0 consider gypsum and organic compost; prefer sorghum or legumes for rotation.",
    "Try garlic-chili spray and pheromone traps for organic pest control; rotate crops annually." ]

/-- Shallow embedding of `mock_ai_response` (src/app.py lines 59-71):
`seed = (hash(prompt) + 12345) % 10_000; rnd = random.Random(seed);
return rnd.choice(samples)`.  `pyHash` stands for Python's builtin string
`hash`, and `randomChoice s xs` stands for `random.Random(s).choice(xs)`. -/
def mock_ai_response (pyHash : String → Int)
    (randomChoice : Int → List String → String) (prompt : String) : String :=
  randomChoice ((pyHash prompt + 12345) % 10000) samples

/-- Message of the first irrigation branch (src/app.py line 190). -/
def skipMsg : String :=
  "Skip irrigation tomorrow — good rainfall expected and moisture is adequate."

/-- Message of the second irrigation branch (src/app.py line 192). -/
def lightMsg : String :=
  "Irrigate lightly in the morning; prioritize drip or mulch to conserve water."

/-- Message of the final irrigation branch (src/app.py line 194). -/
def monitorMsg : String :=
  "Monitor in the morning; consider a light irrigation if crop shows stress."

/-- Shallow embedding of the irrigation-advice conditional (src/app.py lines
189-194): `if next_day_rain > 60 and soil_moisture > 40: ... elif
soil_moisture < 30: ... else: ...`. -/
def irrigation_advice (next_day_rain soil_moisture : Int) : String :=
  if 60 < next_day_rain ∧ 40 < soil_moisture then skipMsg
  else if soil_moisture < 30 then lightMsg
  else monitorMsg

/-- Shallow embedding of the sidebar default soil pH (src/app.py line 80):
`default_ph = 7.2 if soil_type != "Alkaline (saline)" else 8.2`.  The numeric
literals are read as rationals; no floating-point arithmetic is performed on
them in the source, only selection. -/
def default_ph (soil_type : String) : ℚ :=
  if soil_type ≠ "Alkaline (saline)" then 7.2 else 8.2

/-- Modelled from the spec: a Rule of the Advice Rule Engine (spec §3), a pair
of a non-empty keyword list and a response text.  The engine itself is in the
deterministic keyword-matching variants of the repository, which are not under
src/ (src/app.py is the random-choice variant the spec flags in §9). -/
structure Rule where
  keywords : List String
  response : String
deriving DecidableEq

/-- Modelled from the spec: an AdviceResult (spec §3) is either a matched
response with the matched rule's priority, or a sentinel indicating no match. -/
inductive AdviceResult where
  | matched (response : String) (priority : Nat)
  | noMatch
deriving DecidableEq

/-- Lowercase normalization, embedding Python `str.lower` per character. -/
def lowerStr (s : String) : String := ⟨s.data.map Char.toLower⟩

/-- `hasPrefixL pat l` tests whether `pat` is an initial segment of `l`. -/
def hasPrefixL : List Char → List Char → Bool
  | [], _ => true
  | _ :: _, [] => false
  | a :: as, b :: bs => a == b && hasPrefixL as bs

/-- `hasSubL pat l` tests whether `pat` occurs contiguously inside `l`,
embedding the Python substring test `pat in l`. -/
def hasSubL (pat : List Char) : List Char → Bool
  | [] => pat.isEmpty
  | b :: bs => hasPrefixL pat (b :: bs) || hasSubL pat bs

/-- `containsSub q pat` is the Python substring test `pat in q`. -/
def containsSub (q pat : String) : Bool := hasSubL pat.data q.data

/-- Modelled from the spec: a rule triggers when the query contains at least
one of the rule's keywords as a case-insensitive substring (spec §4.1, pure
substring test, no tokenization). -/
def ruleTriggers (q : String) (r : Rule) : Bool :=
  r.keywords.any fun k => containsSub (lowerStr q) (lowerStr k)

/-- Modelled from the spec: iterate the ruleset in order starting at priority
`i` and return the first rule whose trigger succeeds (first-match-wins). -/
def evaluateFrom (q : String) : Nat → List Rule → AdviceResult
  | _, [] => .noMatch
  | i, r :: rs =>
    if ruleTriggers q r then .matched r.response i else evaluateFrom q (i + 1) rs

/-- Modelled from the spec: `evaluate(query, ruleset)` (spec §4.1). -/
def evaluate (q : String) (rs : List Rule) : AdviceResult := evaluateFrom q 0 rs

/-- Modelled from the spec: `defaultResponse()` returns one fixed,
domain-neutral advisory string (spec §4.1); its exact text is unspecified, so
any fixed non-empty constant is faithful. -/
def defaultResponse : String :=
  "No specific rule matched your query; consult your local agricultural extension office for detailed guidance."

/-- Modelled from the spec: the pest-advice rule, with the keyword set named in
spec §8 and the whitefly/neem-spray advisory from the source's canned list as
its response. -/
def pestRule : Rule :=
  ⟨["white insect", "whitefly", "tomato", "leaf", "pest"],
   "White insects likely whiteflies — use neem-spray or sticky traps; prune affected leaves."⟩

/-- Modelled from the spec: the crop-planning rule keyed on "soil" (spec §8
concrete scenario), with the drought-tolerant-crops advisory from the source's
canned list as its response. -/
def cropRule : Rule :=
  ⟨["soil"],
   "Try drought-tolerant millets like ragi and bajra; use mulching to reduce evaporation."⟩

/-- Modelled from the spec: the fixed rule table, restricted to the two rules
whose keyword sets the spec specifies. -/
def specRuleSet : List Rule := [cropRule, pestRule]

/-- Rule A of the spec's first-match-wins scenario: keywords {"soil"}. -/
def ruleA (resp : String) : Rule := ⟨["soil"], resp⟩

/-- Rule B of the spec's first-match-wins scenario: keywords {"soil", "ph"}. -/
def ruleB (resp : String) : Rule := ⟨["soil", "ph"], resp⟩

end AgroGuide

namespace AgroGuide

theorem any_false {α : Type} (p : α → Bool) :
    ∀ l : List α, (∀ a ∈ l, p a = false) → l.any p = false
  | [], _ => rfl
  | a :: as, h => by
    simp only [List.any_cons, Bool.or_eq_false_iff]
    exact ⟨h a (by simp), any_false p as fun b hb => h b (by simp [hb])⟩

theorem evaluateFrom_cons_true {q : String} {r : Rule} {i : Nat} {rs : List Rule}
    (h : ruleTriggers q r = true) :
    evaluateFrom q i (r :: rs) = .matched r.response i := by
  simp [evaluateFrom, h]

theorem evaluateFrom_cons_false {q : String} {r : Rule} {i : Nat} {rs : List Rule}
    (h : ruleTriggers q r = false) :
    evaluateFrom q i (r :: rs) = evaluateFrom q (i + 1) rs := by
  simp [evaluateFrom, h]

theorem evaluateFrom_noMatch (q : String) :
    ∀ (i : Nat) (rs : List Rule), (∀ r ∈ rs, ruleTriggers q r = false) →
      evaluateFrom q i rs = .noMatch
  | _, [], _ => rfl
  | i, r :: rs, h => by
    rw [evaluateFrom_cons_false (h r (by simp))]
    exact evaluateFrom_noMatch q (i + 1) rs fun s hs => h s (by simp [hs])

theorem evaluateFrom_append (q : String) :
    ∀ (pre : List Rule) (i : Nat) (rest : List Rule),
      (∀ r ∈ pre, ruleTriggers q r = false) →
      evaluateFrom q i (pre ++ rest) = evaluateFrom q (i + pre.length) rest
  | [], i, rest, _ => by simp
  | r :: pre, i, rest, h => by
    rw [List.cons_append, evaluateFrom_cons_false (h r (by simp)),
      evaluateFrom_append q pre (i + 1) rest fun s hs => h s (by simp [hs])]
    have harith : i + 1 + pre.length = i + (r :: pre).length := by
      simp only [List.length_cons]
      omega
    rw [harith]

theorem ruleTriggers_congr {q1 q2 : String} (h : lowerStr q1 = lowerStr q2)
    (r : Rule) : ruleTriggers q1 r = ruleTriggers q2 r := by
  simp [ruleTriggers, h]

theorem evaluateFrom_congr {q1 q2 : String} (h : lowerStr q1 = lowerStr q2) :
    ∀ (i : Nat) (rs : List Rule), evaluateFrom q1 i rs = evaluateFrom q2 i rs
  | _, [] => rfl
  | i, r :: rs => by
    cases ht : ruleTriggers q1 r with
    | true =>
      rw [evaluateFrom_cons_true ht,
        evaluateFrom_cons_true ((ruleTriggers_congr h r).symm.trans ht)]
    | false =>
      rw [evaluateFrom_cons_false ht,
        evaluateFrom_cons_false ((ruleTriggers_congr h r).symm.trans ht),
        evaluateFrom_congr h (i + 1) rs]

theorem string_data_ne_nil {k : String} (hk : k ≠ "") : k.data ≠ [] := by
  intro hd
  exact hk (String.ext hd)

/-- Claim C2: the fallback advice function is deterministic and pure.  The
embedding of `mock_ai_response` is a mathematical function of the process
string-hash function, the stdlib PRNG, and the prompt — there is no hidden
state, I/O, or time input in the source — and within one process (one fixed
`pyHash` and `randomChoice`) two calls on prompts with equal hash values,
in particular two calls on the same prompt, return identical strings. -/
theorem mock_ai_response_deterministic (pyHash : String → Int)
    (randomChoice : Int → List String → String) (q1 q2 : String)
    (h : pyHash q1 = pyHash q2) :
    mock_ai_response pyHash randomChoice q1 = mock_ai_response pyHash randomChoice q2 := by
  unfold mock_ai_response
  rw [h]

/-- Witness for C2 at a concrete hash function, PRNG and prompt. -/
theorem mock_ai_response_deterministic_witness :
    mock_ai_response (fun _ => 0) (fun _ xs => xs.headD "") "pest query"
      = mock_ai_response (fun _ => 0) (fun _ xs => xs.headD "") "pest query" :=
  mock_ai_response_deterministic (fun _ => 0) (fun _ xs => xs.headD "")
    "pest query" "pest query" rfl

/-- Claim C9: the irrigation-advice decision is a total three-way conditional
on rain chance and soil moisture: skip when rain chance > 60 and moisture > 40,
otherwise the light-irrigation warning when moisture < 30, otherwise the
monitor message; exactly one of the three pairwise-distinct messages is
produced for every input pair. -/
theorem irrigation_advice_cases (r m : Int) :
    (60 < r ∧ 40 < m → irrigation_advice r m = skipMsg) ∧
    (¬(60 < r ∧ 40 < m) → m < 30 → irrigation_advice r m = lightMsg) ∧
    (¬(60 < r ∧ 40 < m) → ¬(m < 30) → irrigation_advice r m = monitorMsg) ∧
    (irrigation_advice r m = skipMsg ∨ irrigation_advice r m = lightMsg ∨
      irrigation_advice r m = monitorMsg) ∧
    skipMsg ≠ lightMsg ∧ skipMsg ≠ monitorMsg ∧ lightMsg ≠ monitorMsg := by
  refine ⟨?_, ?_, ?_, ?_, by decide, by decide, by decide⟩
  · intro h
    simp [irrigation_advice, h]
  · intro h hm
    simp [irrigation_advice, h, hm]
  · intro h hm
    simp [irrigation_advice, h, hm]
  · unfold irrigation_advice
    split
    · exact Or.inl rfl
    · split
      · exact Or.inr (Or.inl rfl)
      · exact Or.inr (Or.inr rfl)

/-- Witness for C9: at rain chance 70 and moisture 50 the first branch fires. -/
theorem irrigation_advice_cases_witness : irrigation_advice 70 50 = skipMsg :=
  (irrigation_advice_cases 70 50).1 (by constructor <;> decide)

/-- Claim C10: the default soil pH is a pure function of the selected soil
type: 8.2 for "Alkaline (saline)" and 7.2 for every other soil type. -/
theorem default_ph_spec (s : String) :
    (s = "Alkaline (saline)" → default_ph s = 8.2) ∧
    (s ≠ "Alkaline (saline)" → default_ph s = 7.2) := by
  constructor
  · intro h
    simp [default_ph, h]
  · intro h
    simp [default_ph, h]

/-- Witness for C10 at the soil types "Loamy" and "Alkaline (saline)". -/
theorem default_ph_spec_witness :
    default_ph "Loamy" = 7.2 ∧ default_ph "Alkaline (saline)" = 8.2 :=
  ⟨(default_ph_spec "Loamy").2 (by decide),
   (default_ph_spec "Alkaline (saline)").1 rfl⟩

theorem hasSubL_nil (pat : List Char) : hasSubL pat [] = pat.isEmpty := rfl

theorem isEmpty_false {l : List Char} (h : l ≠ []) : l.isEmpty = false := by
  cases l with
  | nil => exact absurd rfl h
  | cons a as => rfl

/-- Claim C3: the fallback advice function is total over all strings: for
every process hash function, every PRNG obeying the stdlib contract of
`random.choice`, and every prompt (the empty string and arbitrarily long
strings included), `mock_ai_response` returns a string — an entry of its
`samples` list at some in-range index — and reaches no error branch. -/
theorem mock_ai_response_total (pyHash : String → Int)
    (randomChoice : Int → List String → String)
    (hrc : ∀ s xs, xs ≠ [] → randomChoice s xs ∈ xs) (prompt : String) :
    ∃ i : Fin samples.length,
      mock_ai_response pyHash randomChoice prompt = samples.get i := by
  have hmem : mock_ai_response pyHash randomChoice prompt ∈ samples :=
    hrc _ samples (by simp [samples])
  obtain ⟨n, hn⟩ := List.mem_iff_get.mp hmem
  exact ⟨n, hn.symm⟩

/-- Witness for C3 at a concrete hash function, PRNG and the empty prompt. -/
theorem mock_ai_response_total_witness :
    ∃ i : Fin samples.length,
      mock_ai_response (fun _ => 0) (fun _ xs => xs.headD "") "" = samples.get i :=
  mock_ai_response_total (fun _ => 0) (fun _ xs => xs.headD "")
    (fun _ xs hxs => by
      cases xs with
      | nil => exact absurd rfl hxs
      | cons a as => simp) ""

/-- Claim C8: for every query string, the string returned by
`mock_ai_response` is a member of its fixed literal `samples` list, which has
exactly five entries. -/
theorem mock_ai_response_mem_samples (pyHash : String → Int)
    (randomChoice : Int → List String → String)
    (hrc : ∀ s xs, xs ≠ [] → randomChoice s xs ∈ xs) (prompt : String) :
    mock_ai_response pyHash randomChoice prompt ∈ samples ∧ samples.length = 5 :=
  ⟨hrc _ samples (by simp [samples]), rfl⟩

/-- Witness for C8 at a concrete hash function, PRNG and prompt. -/
theorem mock_ai_response_mem_samples_witness :
    mock_ai_response (fun _ => 0) (fun _ xs => xs.headD "") "tomato" ∈ samples ∧
      samples.length = 5 :=
  mock_ai_response_mem_samples (fun _ => 0) (fun _ xs => xs.headD "")
    (fun _ xs hxs => by
      cases xs with
      | nil => exact absurd rfl hxs
      | cons a as => simp) "tomato"

/-- Claim C1: every query that triggers the pest rule (contains one of its
keywords "white insect", "whitefly", "tomato", "leaf", "pest"
case-insensitively), evaluated on a ruleset where no rule placed before the
pest rule matches, yields the pest rule's whitefly/neem-spray advisory at the
pest rule's priority; in particular the concrete query "White insects on
tomato leaves, what should I do?" on the modelled ruleset yields that
advisory. -/
theorem evaluate_pest_keyword (pre post : List Rule) (q : String)
    (hq : ruleTriggers q pestRule = true)
    (hpre : ∀ r ∈ pre, ruleTriggers q r = false) :
    evaluate q (pre ++ pestRule :: post) = .matched pestRule.response pre.length ∧
    evaluate "White insects on tomato leaves, what should I do?" specRuleSet =
      .matched pestRule.response 1 := by
  constructor
  · unfold evaluate
    rw [evaluateFrom_append q pre 0 (pestRule :: post) hpre,
      evaluateFrom_cons_true hq]
    simp
  · decide

/-- Witness for C1: the concrete pest query on the modelled ruleset, whose
first rule (the crop-planning rule) does not match it. -/
theorem evaluate_pest_keyword_witness :
    evaluate "White insects on tomato leaves, what should I do?"
        ([cropRule] ++ pestRule :: []) = .matched pestRule.response 1 ∧
    evaluate "White insects on tomato leaves, what should I do?" specRuleSet =
      .matched pestRule.response 1 := by
  have h := evaluate_pest_keyword [cropRule] []
    "White insects on tomato leaves, what should I do?" (by decide) (by decide)
  exact ⟨h.1, h.2⟩

/-- Claim C4: for every query containing none of any rule's keywords,
`evaluate` returns the `noMatch` sentinel, which is distinct from every
matched response; `defaultResponse` is a non-empty constant; and the concrete
query "What is the best time to harvest sugarcane?" on the modelled ruleset
yields `noMatch`. -/
theorem evaluate_no_keyword (rs : List Rule) (q : String)
    (h : ∀ r ∈ rs, ∀ k ∈ r.keywords,
      containsSub (lowerStr q) (lowerStr k) = false) :
    evaluate q rs = .noMatch ∧
    defaultResponse ≠ "" ∧
    (∀ resp i, AdviceResult.noMatch ≠ AdviceResult.matched resp i) ∧
    evaluate "What is the best time to harvest sugarcane?" specRuleSet =
      .noMatch := by
  refine ⟨?_, by decide, fun resp i hEq => AdviceResult.noConfusion hEq, by decide⟩
  exact evaluateFrom_noMatch q 0 rs fun r hr =>
    any_false _ r.keywords fun k hk => h r hr k hk

/-- Witness for C4: the concrete sugarcane query on the modelled ruleset. -/
theorem evaluate_no_keyword_witness :
    evaluate "What is the best time to harvest sugarcane?" specRuleSet =
      .noMatch ∧ defaultResponse ≠ "" := by
  have h := evaluate_no_keyword specRuleSet
    "What is the best time to harvest sugarcane?" (by decide)
  exact ⟨h.1, h.2.1⟩

/-- Claim C5: first-match-wins — in every ruleset where rule A (keywords
{"soil"}) comes first and rule B (keywords {"soil", "ph"}) comes anywhere
after it, every query containing both "soil" and "ph" returns A's response at
priority 0, and never B's response when the two responses differ. -/
theorem evaluate_first_match_wins (respA respB : String) (mid post : List Rule)
    (q : String)
    (hsoil : containsSub (lowerStr q) (lowerStr "soil") = true)
    (_hph : containsSub (lowerStr q) (lowerStr "ph") = true) :
    evaluate q (ruleA respA :: (mid ++ ruleB respB :: post)) =
      .matched respA 0 ∧
    (respA ≠ respB → ∀ i,
      evaluate q (ruleA respA :: (mid ++ ruleB respB :: post)) ≠
        .matched respB i) := by
  have htrig : ruleTriggers q (ruleA respA) = true := by
    simp only [ruleTriggers, ruleA, List.any_cons, List.any_nil, Bool.or_false]
    exact hsoil
  have h1 : evaluate q (ruleA respA :: (mid ++ ruleB respB :: post)) =
      .matched respA 0 := evaluateFrom_cons_true htrig
  constructor
  · exact h1
  · intro hne i hEq
    rw [h1] at hEq
    injection hEq with hresp hprio
    exact hne hresp

/-- Witness for C5 at the query "soil ph" and a two-rule ruleset. -/
theorem evaluate_first_match_wins_witness :
    evaluate "soil ph" (ruleA "answer A" :: ([] ++ ruleB "answer B" :: [])) =
      .matched "answer A" 0 ∧
    evaluate "soil ph" (ruleA "answer A" :: ([] ++ ruleB "answer B" :: [])) ≠
      .matched "answer B" 1 := by
  have h := evaluate_first_match_wins "answer A" "answer B" [] [] "soil ph"
    (by decide) (by decide)
  exact ⟨h.1, h.2 (by decide) 1⟩

/-- Claim C6: matching is case-insensitive — the queries "WHITEFLY" and
"whitefly" produce identical outcomes on every ruleset. -/
theorem evaluate_case_insensitive (rs : List Rule) :
    evaluate "WHITEFLY" rs = evaluate "whitefly" rs :=
  evaluateFrom_congr (by decide) 0 rs

/-- Claim C7: for the empty query, since every rule's keyword set is non-empty
and no keyword is the empty string, `evaluate` returns the `noMatch`
sentinel rather than any advice response. -/
theorem evaluate_empty_query (rs : List Rule)
    (_hne : ∀ r ∈ rs, r.keywords ≠ [])
    (hk : ∀ r ∈ rs, ∀ k ∈ r.keywords, k ≠ "") :
    evaluate "" rs = .noMatch := by
  apply evaluateFrom_noMatch
  intro r hr
  apply any_false
  intro k hkk
  have hkd : (lowerStr k).data ≠ [] := by
    intro hnil
    exact string_data_ne_nil (hk r hr k hkk) (List.map_eq_nil_iff.mp hnil)
  have hsub : containsSub (lowerStr "") (lowerStr k) = false := by
    unfold containsSub
    rw [show (lowerStr "").data = [] from rfl, hasSubL_nil]
    exact isEmpty_false hkd
  exact hsub

/-- Witness for C7: the empty query on the modelled ruleset. -/
theorem evaluate_empty_query_witness : evaluate "" specRuleSet = .noMatch :=
  evaluate_empty_query specRuleSet (by decide) (by decide)

end AgroGuide
